import Mathlib

/-!
Verification of the Streamlit presentation layer of `RustExam`
(`src/StreamlitApp/document_manager.py` and `src/StreamlitApp/startpage.py`)
against its natural-language specification.

The two pages are shallowly embedded as pure functions.  A page run is
parameterised by
  * the Streamlit session state (an association list of string keys to
    Python values),
  * the widget inputs of the run (uploaded file, button clicks, form fields),
  * an HTTP oracle `HttpRequest → HttpResponse` standing for the backend.
A run returns a trace: the HTTP requests issued (with exactly the headers,
timeout and body the Python code passes to the `requests` library), the
rendered Streamlit events, and the Python exception that escaped the script,
if any.  Python name resolution inside the f-strings of the download loop is
modelled explicitly with an environment of bound module names, because two
of the verified properties are precisely about unbound-name errors there.
-/

namespace Py

/-- The single-quote character, written via its code point so that string
literals in this file stay plain. -/
def squote : String := String.singleton (Char.ofNat 39)

/-- The opening-brace character of a Python dict display. -/
def lbrace : String := String.singleton (Char.ofNat 123)

/-- The closing-brace character of a Python dict display. -/
def rbrace : String := String.singleton (Char.ofNat 125)

/-- Python runtime values as far as the two pages manipulate them:
strings, booleans, `None`, dicts with string keys and string values
(the `headers` dict of document_manager.py line 6 and the file records of
the `/files` response), and atom objects (modules, `Response` objects,
the `UploadedFile` object) that the pages never interpolate or compare. -/
inductive PyValue
  | str (s : String)
  | bool (b : Bool)
  | pynone
  | strDict (fields : List (String × String))
  | opq (descr : String)
deriving DecidableEq, Repr

/-- Python `str()` of a value, as used by f-string interpolation.
`str()` of a dict renders `\x7b'k': 'v', ...\x7d`; string values of the
dicts appearing in these pages contain no quote or backslash characters,
so `repr` of such a value is just the value between single quotes. -/
def pyStrOf : PyValue → String
  | .str s => s
  | .bool true => "True"
  | .bool false => "False"
  | .pynone => "None"
  | .strDict fs =>
      lbrace ++
        String.intercalate ", "
          (fs.map fun kv =>
            squote ++ kv.1 ++ squote ++ ": " ++ squote ++ kv.2 ++ squote) ++
      rbrace
  | .opq d => "<" ++ d ++ ">"

/-- Python truthiness (`bool(v)`): empty strings, `False`, `None` and empty
dicts are falsy; generic objects are truthy. -/
def pyTruthy : PyValue → Bool
  | .str s => !s.isEmpty
  | .bool b => b
  | .pynone => false
  | .strDict fs => !fs.isEmpty
  | .opq _ => true

/-- Python exceptions the pages can raise. -/
inductive PyError
  | keyError (key : String)
  | nameError (nm : String)
  | attributeError (attr : String)
  | valueError (msg : String)
  | unmodelled (descr : String)
deriving DecidableEq, Repr

/-- `st.session_state`, modelled as an association list with the lookup
semantics of a Python dict (first binding of a key wins; `sessionSet`
keeps keys unique). -/
abbrev SessionState := List (String × PyValue)

/-- Dict lookup: the value stored under `x`, if any. -/
def sessionLookup : SessionState → String → Option PyValue
  | [], _ => Option.none
  | (k, v) :: rest, x => if k == x then some v else sessionLookup rest x

/-- Python `dict.get(x, d)`. -/
def sessionGetD (s : SessionState) (x : String) (d : PyValue) : PyValue :=
  match sessionLookup s x with
  | some v => v
  | Option.none => d

/-- Python `x in dict`. -/
def hasKey (s : SessionState) (x : String) : Bool :=
  (sessionLookup s x).isSome

/-- Remove every binding of `x` (a Python dict holds at most one). -/
def eraseKey : SessionState → String → SessionState
  | [], _ => []
  | (k, v) :: rest, x =>
      if k == x then eraseKey rest x else (k, v) :: eraseKey rest x

/-- Python `dict[x] = v`. -/
def sessionSet (s : SessionState) (x : String) (v : PyValue) : SessionState :=
  (x, v) :: eraseKey s x

/-- Python `del dict[x]`: raises `KeyError` when the key is absent. -/
def sessionDelChecked (s : SessionState) (x : String) :
    Except PyError SessionState :=
  if hasKey s x then .ok (eraseKey s x) else .error (.keyError x)

/-- A Python name environment: the names bound in the scope of an
expression, with their current values. -/
abbrev Env := List (String × PyValue)

/-- Resolving a plain name in an environment: `NameError` when unbound,
exactly as Python resolves the names interpolated into an f-string. -/
def envLookup : Env → String → Except PyError PyValue
  | [], x => .error (.nameError x)
  | (k, v) :: rest, x => if k == x then .ok v else envLookup rest x

/-- Python `dict.get(x)` on a dict of `PyValue`s (returns `None` when the
key is absent), as used on the parsed `/login` response body. -/
def pyDictGet : List (String × PyValue) → String → PyValue
  | [], _ => .pynone
  | (k, v) :: rest, x => if k == x then v else pyDictGet rest x

end Py

namespace Http

open Py

/-- One record of the `/files` response body, per the comment on
document_manager.py line 35: a JSON object with fields id and filename. -/
structure FileEntry where
  id : String
  filename : String
deriving DecidableEq, Repr

/-- The Python value a `/files` record parses to: a dict with string keys
and string values, id first, as documented on document_manager.py line 35. -/
def entryValue (e : FileEntry) : PyValue :=
  .strDict [("id", e.id), ("filename", e.filename)]

/-- A parsed response body, covering the shapes the two pages consume:
a JSON object (the `/login` body), a JSON array of file records (the
`/files` body), JSON null, and a body that is not JSON at all. -/
inductive JsonBody
  | obj (fields : List (String × PyValue))
  | fileArr (entries : List FileEntry)
  | jnull
  | noJson
deriving DecidableEq, Repr

inductive HttpMethod
  | get
  | post
deriving DecidableEq, Repr

/-- One part of a `requests` multipart upload: the form field name and the
`(filename, bytes, content_type)` triple the code builds on
document_manager.py lines 24-28. -/
structure MultipartFile where
  fieldName : String
  filename : String
  content : List Nat
  contentType : String
deriving DecidableEq, Repr

inductive RequestBody
  | empty
  | jsonBody (fields : List (String × String))
  | multipart (files : List MultipartFile)
deriving DecidableEq, Repr

/-- An HTTP request exactly as handed to the `requests` library: `headers`
is the header dict passed via the `headers=` keyword (empty when the call
passes none), and `timeout` is the value of the `timeout=` keyword
(`Option.none` when the call passes none, which `requests` treats as no
timeout at all). -/
structure HttpRequest where
  method : HttpMethod
  url : String
  headers : List (String × String)
  timeout : Option Nat
  body : RequestBody
deriving DecidableEq, Repr

/-- An HTTP response as the pages consume it: `status_code`, `text`,
the parsed JSON body, and the raw `content` bytes. -/
structure HttpResponse where
  status_code : Nat
  text : String
  json : JsonBody
  content : List Nat
deriving DecidableEq, Repr

/-- `requests.get(url)` with no further keyword arguments. -/
def requestsGet (url : String) : HttpRequest :=
  { method := .get, url := url, headers := [], timeout := Option.none,
    body := .empty }

/-- `requests.post(url, json=fields)` with no further keyword arguments. -/
def requestsPostJson (url : String) (fields : List (String × String)) :
    HttpRequest :=
  { method := .post, url := url, headers := [], timeout := Option.none,
    body := .jsonBody fields }

/-- `requests.post(url, files=files)` with no further keyword arguments. -/
def requestsPostFiles (url : String) (files : List MultipartFile) :
    HttpRequest :=
  { method := .post, url := url, headers := [], timeout := Option.none,
    body := .multipart files }

/-- `response.json().get("token")` as performed by startpage.py line 80:
`.get` exists only on a parsed JSON object; on a list or `None` it raises
`AttributeError`, and on a non-JSON body `.json()` itself raises. -/
def jsonGetToken : JsonBody → Except PyError PyValue
  | .obj fields => .ok (pyDictGet fields "token")
  | .fileArr _ => .error (.attributeError "get")
  | .jnull => .error (.attributeError "get")
  | .noJson => .error (.valueError "response body is not JSON")

end Http

namespace App

open Py Http

/-- document_manager.py line 5 and startpage.py line 9. -/
def API_URL : String := "http://localhost:3000"

/-- The Streamlit events a page run renders, in order. `downloadButton`
records the keyword arguments of `st.download_button` on lines 46-51 of
document_manager.py; its `file_name` argument is the Python value of the
module name `filename`, passed unconverted. -/
inductive RenderEvent
  | warning (msg : String)
  | title (msg : String)
  | success (msg : String)
  | error (msg : String)
  | info (msg : String)
  | downloadButton (label : String) (data : List Nat) (file_name : PyValue)
      (key : String)
deriving DecidableEq, Repr

def RenderEvent.isSuccess : RenderEvent → Bool
  | .success _ => true
  | _ => false

def RenderEvent.isWarning : RenderEvent → Bool
  | .warning _ => true
  | _ => false

def RenderEvent.isDownloadButton : RenderEvent → Bool
  | .downloadButton _ _ _ _ => true
  | _ => false

def RenderEvent.isErr : RenderEvent → Bool
  | .error _ => true
  | _ => false

/-- The trace of one run of document_manager.py. -/
structure PageTrace where
  requests : List HttpRequest
  events : List RenderEvent
  stopped : Bool
  raised : Option PyError
deriving DecidableEq, Repr

/-- The file chosen in `st.file_uploader`: display name, bytes
(`getvalue()`), and MIME type. -/
structure UploadedFile where
  name : String
  content : List Nat
  type : String
deriving DecidableEq, Repr

/-- The `/upload` request of document_manager.py line 29:
`requests.post(API_URL + "/upload", files=files)` where `files` is the
dict built on lines 24-28.  Neither `headers=` nor `timeout=` is passed. -/
def uploadRequest (f : UploadedFile) : HttpRequest :=
  requestsPostFiles (API_URL ++ "/upload")
    [{ fieldName := "file", filename := f.name, content := f.content,
       contentType := f.type }]

/-- The `/files` request of document_manager.py line 36:
`requests.get(API_URL + "/files")`, again with no `headers=` and no
`timeout=`. -/
def filesRequest : HttpRequest :=
  requestsGet (API_URL ++ "/files")

/-- The event rendered by lines 30-33 for an upload response with the
given status code. -/
def uploadOutcomeEvent (sc : Nat) : RenderEvent :=
  if sc == 200 then .success "File uploaded successfully."
  else .error ("Upload failed: " ++ toString sc)

/-- Lines 22-33 of document_manager.py: when a file is chosen and the
Upload button is clicked, post it and render the outcome. -/
def docUploadSection (http : HttpRequest → HttpResponse)
    (uploaded : Option UploadedFile) (clicked : Bool) :
    List HttpRequest × List RenderEvent :=
  match uploaded, clicked with
  | some f, true =>
      ([uploadRequest f], [uploadOutcomeEvent (http (uploadRequest f)).status_code])
  | _, _ => ([], [])

/-- The module-scope name environment of document_manager.py at the top of
the download loop: the imports (lines 1-2) and every assignment target
executed so far (lines 5, 6, 20, and 24/29 when the upload branch ran,
36, 38).  No assignment anywhere in the module binds `file_id` or `file`. -/
def docModuleEnv (tokenVal : PyValue) (uploaded : Option UploadedFile)
    (uploadRan : Bool) : Env :=
  [("st", PyValue.opq "module streamlit"),
   ("requests", PyValue.opq "module requests"),
   ("API_URL", PyValue.str API_URL),
   ("headers", PyValue.strDict [("Authorization", "Bearer " ++ pyStrOf tokenVal)]),
   ("uploaded_file",
     match uploaded with
     | some _ => PyValue.opq "UploadedFile"
     | Option.none => PyValue.pynone)] ++
  (if uploadRan then
     [("files", PyValue.opq "dict"), ("response", PyValue.opq "Response")]
   else []) ++
  [("resp", PyValue.opq "Response"), ("file_list", PyValue.opq "list")]

/-- Line 43: `download_url = f"...API_URL.../download_file/...filename..."`,
resolving both interpolated names against the environment, left to right. -/
def fstrDownloadUrl (env : Env) : Except PyError String :=
  match envLookup env "API_URL" with
  | .error e => .error e
  | .ok a =>
    match envLookup env "filename" with
    | .error e => .error e
    | .ok f => .ok (pyStrOf a ++ "/download_file/" ++ pyStrOf f)

/-- Lines 46-51: the arguments of `st.download_button`, evaluated in
order.  `label` interpolates `filename`; `file_name` passes the value of
`filename` itself; `key` interpolates `file_id`, a name the module never
binds. -/
def downloadButtonArgs (env : Env) (data : List Nat) :
    Except PyError RenderEvent :=
  match envLookup env "filename" with
  | .error e => .error e
  | .ok f1 =>
    match envLookup env "filename" with
    | .error e => .error e
    | .ok f2 =>
      match envLookup env "file_id" with
      | .error e => .error e
      | .ok k =>
          .ok (RenderEvent.downloadButton ("Download " ++ pyStrOf f1) data f2
            ("download_" ++ pyStrOf k))

/-- Line 53: the f-string of the failure message interpolates `file`, a
name the module never binds, before it reads `file_resp.status_code`. -/
def downloadFailMsg (env : Env) (sc : Nat) : Except PyError String :=
  match envLookup env "file" with
  | .error e => .error e
  | .ok fv => .ok ("Failed to download " ++ pyStrOf fv ++ ": " ++ toString sc)

/-- The outcome of a prefix of the download loop of lines 41-53. -/
structure LoopOut where
  requests : List HttpRequest
  events : List RenderEvent
  raised : Option PyError
deriving DecidableEq, Repr

/-- One iteration of the loop of lines 41-53: bind the loop variable
`filename` to the current entry, build the download URL, fetch it, and
either render the download button (status 200) or the failure message. -/
def docLoopIter (http : HttpRequest → HttpResponse) (env : Env)
    (entry : FileEntry) : LoopOut :=
  let env := ("filename", entryValue entry) :: env
  match fstrDownloadUrl env with
  | .error e => { requests := [], events := [], raised := some e }
  | .ok download_url =>
    let req := requestsGet download_url
    let file_resp := http req
    let env := ("file_resp", PyValue.opq "Response") ::
      ("download_url", PyValue.str download_url) :: env
    if file_resp.status_code == 200 then
      match downloadButtonArgs env file_resp.content with
      | .error e => { requests := [req], events := [], raised := some e }
      | .ok ev => { requests := [req], events := [ev], raised := Option.none }
    else
      match downloadFailMsg env file_resp.status_code with
      | .error e => { requests := [req], events := [], raised := some e }
      | .ok msg =>
          { requests := [req], events := [RenderEvent.error msg],
            raised := Option.none }

/-- The loop of lines 41-53 over the whole file list; an exception raised
in an iteration aborts the loop (and the script). -/
def docLoop (http : HttpRequest → HttpResponse) (env : Env) :
    List FileEntry → LoopOut
  | [] => { requests := [], events := [], raised := Option.none }
  | e :: rest =>
    let it := docLoopIter http env e
    match it.raised with
    | some err =>
        { requests := it.requests, events := it.events, raised := some err }
    | Option.none =>
      let r := docLoop http env rest
      { requests := it.requests ++ r.requests,
        events := it.events ++ r.events, raised := r.raised }

/-- Lines 35-56 of document_manager.py: fetch `/files`; on 200 parse the
list, render the empty-list notice, and run the download loop; otherwise
render the fetch-failure message.  A 200 body that is not a JSON list of
file records is outside the shapes this embedding models. -/
def docListSection (http : HttpRequest → HttpResponse) (env : Env) :
    List HttpRequest × List RenderEvent × Option PyError :=
  let resp := http filesRequest
  if resp.status_code == 200 then
    match resp.json with
    | .fileArr file_list =>
      let pre := if file_list.isEmpty then [RenderEvent.info "No files found."]
        else []
      let l := docLoop http env file_list
      (filesRequest :: l.requests, pre ++ l.events, l.raised)
    | _ =>
      ([filesRequest], [],
        some (.unmodelled "200 body of /files is not a list of file records"))
  else
    ([filesRequest],
      [RenderEvent.error ("Failed to fetch file list: " ++ toString resp.status_code)],
      Option.none)

/-- One run of document_manager.py.  Line 7 subscripts
`st.session_state["token"]` while building the `headers` dict, so a
missing key raises `KeyError` before anything is rendered; the login
guard of lines 11-13 then warns and stops on a falsy token; otherwise the
title, the upload section and the listing section run in order.  The
`headers` dict is bound in the module environment but is passed to none
of the three requests. -/
def runDocumentManager (session : SessionState)
    (uploaded : Option UploadedFile) (clicked : Bool)
    (http : HttpRequest → HttpResponse) : PageTrace :=
  match sessionLookup session "token" with
  | Option.none =>
      { requests := [], events := [], stopped := false,
        raised := some (.keyError "token") }
  | some tokenVal =>
    if pyTruthy (sessionGetD session "token" (.bool false)) = false then
      { requests := [], events := [RenderEvent.warning "Please log in first."],
        stopped := true, raised := Option.none }
    else
      let up := docUploadSection http uploaded clicked
      let env := docModuleEnv tokenVal uploaded (uploaded.isSome && clicked)
      let ls := docListSection http env
      { requests := up.1 ++ ls.1,
        events := RenderEvent.title "Document Manager" :: (up.2 ++ ls.2.1),
        stopped := false, raised := ls.2.2 }

/-- The URL line 43 actually builds for a file record: Python `str()` of
the whole dict entry is spliced into the path. -/
def docDownloadUrl (e : FileEntry) : String :=
  API_URL ++ "/download_file/" ++ pyStrOf (entryValue e)

/-- The dummy credential dict of startpage.py lines 14-19.  It is bound at
module scope and never read again. -/
def USER_CREDENTIALS : List (String × String) :=
  [("admin", "admin123"), ("user", "password")]

/-- The `/login` request of startpage.py line 21:
`requests.post(API_URL + "/login", json=...)` with no `headers=` and no
`timeout=`. -/
def loginRequest (username password : String) : HttpRequest :=
  requestsPostJson (API_URL ++ "/login")
    [("username", username), ("password", password)]

/-- The info message of startpage.py line 40 (quotes written via
`Py.squote` so the file carries no literal quote characters). -/
def navigateMsg : String :=
  "Now navigate to " ++ Py.squote ++ "Document Manager" ++ Py.squote ++
    " from the sidebar."

/-- The title event of startpage.py line 28. -/
def startTitle : RenderEvent := RenderEvent.title "🔐 Login"

/-- Lines 8-11 of startpage.py: seed `token` with `False` and `username`
with the empty string when the keys are absent. -/
def sessionInit (s : SessionState) : SessionState :=
  let s1 := if hasKey s "token" then s else sessionSet s "token" (.bool false)
  if hasKey s1 "username" then s1 else sessionSet s1 "username" (.str "")

/-- The trace of one run of startpage.py: the requests issued, the events
rendered, the session state after the run, the value returned by `login`
when the form was submitted, and the exception that escaped, if any. -/
structure StartTrace where
  requests : List HttpRequest
  events : List RenderEvent
  finalSession : SessionState
  loginResult : Option Bool
  raised : Option PyError
deriving DecidableEq, Repr

set_option linter.unusedVariables false in
/-- One run of startpage.py.  The module seeds the session (lines 8-11),
binds `USER_CREDENTIALS` (lines 14-19) without ever reading it, renders
the title, and on form submission calls `login` (lines 20-26): POST
`/login`; on status 200 store `response.json().get("token")` in the
session and return `True`, otherwise render `response.text` as an error
and return `False`.  On a `True` return the handler (lines 36-40) sets
`logged_in` and `username` and renders the success messages; on `False`
it deletes `token` and `username` from the session (lines 42-43). -/
def runStartpage (creds : List (String × String)) (session : SessionState)
    (username password : String) (submit : Bool)
    (http : HttpRequest → HttpResponse) : StartTrace :=
  match submit with
  | false =>
    { requests := [], events := [startTitle],
      finalSession := sessionInit session, loginResult := Option.none,
      raised := Option.none }
  | true =>
    if (http (loginRequest username password)).status_code == 200 then
      match jsonGetToken (http (loginRequest username password)).json with
      | .error e =>
          { requests := [loginRequest username password],
            events := [startTitle], finalSession := sessionInit session,
            loginResult := Option.none, raised := some e }
      | .ok tv =>
          { requests := [loginRequest username password],
            events := [startTitle, RenderEvent.success "Login successful!",
              RenderEvent.info navigateMsg],
            finalSession := sessionSet (sessionSet
              (sessionSet (sessionInit session) "token" tv)
              "logged_in" (.bool true)) "username" (.str username),
            loginResult := some true, raised := Option.none }
    else
      match sessionDelChecked (sessionInit session) "token" with
      | .error e =>
          { requests := [loginRequest username password],
            events := [startTitle,
              RenderEvent.error (http (loginRequest username password)).text],
            finalSession := sessionInit session, loginResult := some false,
            raised := some e }
      | .ok s3 =>
        match sessionDelChecked s3 "username" with
        | .error e =>
            { requests := [loginRequest username password],
              events := [startTitle,
                RenderEvent.error (http (loginRequest username password)).text],
              finalSession := s3, loginResult := some false,
              raised := some e }
        | .ok s4 =>
            { requests := [loginRequest username password],
              events := [startTitle,
                RenderEvent.error (http (loginRequest username password)).text],
              finalSession := s4, loginResult := some false,
              raised := Option.none }

/-- startpage.py as it executes: `runStartpage` applied to the module's
own credential dict. -/
def runStartpageModule (session : SessionState) (username password : String)
    (submit : Bool) (http : HttpRequest → HttpResponse) : StartTrace :=
  runStartpage USER_CREDENTIALS session username password submit http

/-! ### Concrete backend oracles used to instantiate the theorems -/

/-- A backend that fails every call with a 500 and no JSON body. -/
def httpFail : HttpRequest → HttpResponse := fun _ =>
  { status_code := 500, text := "boom", json := .noJson, content := [] }

/-- A backend that answers every call with 200 and a one-record file
list. -/
def httpAll200 : HttpRequest → HttpResponse := fun _ =>
  { status_code := 200, text := "ok",
    json := .fileArr [{ id := "abc", filename := "a.txt" }],
    content := [104, 105] }

/-- A backend that answers every call with 200 and an empty file list. -/
def httpEmptyList : HttpRequest → HttpResponse := fun _ =>
  { status_code := 200, text := "ok", json := .fileArr [], content := [] }

/-- A backend that serves the one-record file list on `/files` and
answers 404 everywhere else. -/
def httpListThen404 : HttpRequest → HttpResponse := fun r =>
  if r.url == API_URL ++ "/files" then
    { status_code := 200, text := "ok",
      json := .fileArr [{ id := "abc", filename := "a.txt" }],
      content := [] }
  else
    { status_code := 404, text := "not found", json := .noJson, content := [] }

/-- A backend whose `/login` answers 200 with a token object. -/
def httpLoginOk : HttpRequest → HttpResponse := fun _ =>
  { status_code := 200, text := "ok",
    json := .obj [("token", PyValue.str "tok123")], content := [] }

/-- A backend whose `/login` answers 401 with an error body. -/
def httpLoginBad : HttpRequest → HttpResponse := fun _ =>
  { status_code := 401, text := "Invalid credentials", json := .noJson,
    content := [] }

/-! ### Helper lemmas about the session model -/

theorem sessionLookup_eraseKey_self (s : SessionState) (k : String) :
    sessionLookup (eraseKey s k) k = Option.none := by
  induction s with
  | nil => rfl
  | cons kv rest ih =>
    obtain ⟨a, b⟩ := kv
    by_cases h : a == k
    · simpa [eraseKey, h] using ih
    · simp [eraseKey, sessionLookup, h, ih]

theorem sessionLookup_eraseKey_ne (s : SessionState) (k x : String)
    (h : (k == x) = false) :
    sessionLookup (eraseKey s k) x = sessionLookup s x := by
  induction s with
  | nil => rfl
  | cons kv rest ih =>
    obtain ⟨a, b⟩ := kv
    by_cases h1 : a == k
    · have h2 : (a == x) = false := by
        have ha : a = k := by simpa using h1
        simpa [ha] using h
      simp [eraseKey, sessionLookup, h1, h2, ih]
    · simp [eraseKey, sessionLookup, h1, ih]

theorem sessionLookup_sessionSet_self (s : SessionState) (k : String)
    (v : PyValue) : sessionLookup (sessionSet s k v) k = some v := by
  simp [sessionSet, sessionLookup]

theorem sessionLookup_sessionSet_ne (s : SessionState) (k x : String)
    (v : PyValue) (h : (k == x) = false) :
    sessionLookup (sessionSet s k v) x = sessionLookup s x := by
  simp [sessionSet, sessionLookup, h, sessionLookup_eraseKey_ne s k x h]

theorem hasKey_sessionSet_self (s : SessionState) (k : String) (v : PyValue) :
    hasKey (sessionSet s k v) k = true := by
  simp [hasKey, sessionLookup_sessionSet_self]

theorem hasKey_sessionSet_ne (s : SessionState) (k x : String) (v : PyValue)
    (h : (k == x) = false) :
    hasKey (sessionSet s k v) x = hasKey s x := by
  simp [hasKey, sessionLookup_sessionSet_ne s k x v h]

theorem hasKey_sessionInit_token (s : SessionState) :
    hasKey (sessionInit s) "token" = true := by
  unfold sessionInit
  by_cases h1 : hasKey s "token"
  · simp only [h1, if_true]
    by_cases h2 : hasKey s "username"
    · simp [h2, h1]
    · simp [h2, hasKey_sessionSet_ne s "username" "token" (.str "") (by decide), h1]
  · simp only [h1]
    by_cases h2 : hasKey (sessionSet s "token" (.bool false)) "username"
    · simp [h2, hasKey_sessionSet_self]
    · simp [h2,
        hasKey_sessionSet_ne (sessionSet s "token" (.bool false)) "username"
          "token" (.str "") (by decide),
        hasKey_sessionSet_self]

theorem hasKey_sessionInit_username (s : SessionState) :
    hasKey (sessionInit s) "username" = true := by
  unfold sessionInit
  by_cases h1 : hasKey s "token"
  · simp only [h1, if_true]
    by_cases h2 : hasKey s "username"
    · simp [h2]
    · simp [h2, hasKey_sessionSet_self]
  · simp only [h1]
    by_cases h2 : hasKey (sessionSet s "token" (.bool false)) "username"
    · simp [h2]
    · simp [h2, hasKey_sessionSet_self]

/-! ### Helper lemmas about the document-manager page -/

/-- One loop iteration over a module environment: the download request is
issued with the str-of-the-entry URL, and then either branch of lines
45-53 raises a `NameError` while evaluating its f-strings — `file_id` on
the 200 branch, `file` on the failure branch. -/
theorem docLoopIter_spec (http : HttpRequest → HttpResponse) (tv : PyValue)
    (uploaded : Option UploadedFile) (clicked : Bool) (e : FileEntry) :
    docLoopIter http (docModuleEnv tv uploaded (uploaded.isSome && clicked)) e =
      if (http (requestsGet (docDownloadUrl e))).status_code == 200 then
        { requests := [requestsGet (docDownloadUrl e)], events := [],
          raised := some (.nameError "file_id") }
      else
        { requests := [requestsGet (docDownloadUrl e)], events := [],
          raised := some (.nameError "file") } := by
  cases uploaded <;> cases clicked <;> rfl

/-- The download loop over the module environment: an empty list does
nothing, and a non-empty list issues exactly one download request for its
first entry and then raises — `NameError` on `file_id` when that request
answers 200, `NameError` on `file` otherwise. -/
theorem docLoop_spec (http : HttpRequest → HttpResponse) (tv : PyValue)
    (uploaded : Option UploadedFile) (clicked : Bool) (es : List FileEntry) :
    docLoop http (docModuleEnv tv uploaded (uploaded.isSome && clicked)) es =
      match es with
      | [] => { requests := [], events := [], raised := Option.none }
      | e :: _ =>
        if (http (requestsGet (docDownloadUrl e))).status_code == 200 then
          { requests := [requestsGet (docDownloadUrl e)], events := [],
            raised := some (.nameError "file_id") }
        else
          { requests := [requestsGet (docDownloadUrl e)], events := [],
            raised := some (.nameError "file") } := by
  cases es with
  | nil => rfl
  | cons e rest =>
    cases hb : (http (requestsGet (docDownloadUrl e))).status_code == 200 <;>
      simp [docLoop, docLoopIter_spec, hb]

/-- Full characterisation of lines 35-56 over the module environment. -/
theorem docListSection_spec (http : HttpRequest → HttpResponse) (tv : PyValue)
    (uploaded : Option UploadedFile) (clicked : Bool) :
    docListSection http (docModuleEnv tv uploaded (uploaded.isSome && clicked)) =
      if (http filesRequest).status_code == 200 then
        match (http filesRequest).json with
        | .fileArr [] =>
            ([filesRequest], [RenderEvent.info "No files found."], Option.none)
        | .fileArr (e :: _) =>
            if (http (requestsGet (docDownloadUrl e))).status_code == 200 then
              ([filesRequest, requestsGet (docDownloadUrl e)], [],
                some (.nameError "file_id"))
            else
              ([filesRequest, requestsGet (docDownloadUrl e)], [],
                some (.nameError "file"))
        | _ =>
            ([filesRequest], [],
              some (.unmodelled "200 body of /files is not a list of file records"))
      else
        ([filesRequest],
          [RenderEvent.error
            ("Failed to fetch file list: " ++ toString (http filesRequest).status_code)],
          Option.none) := by
  unfold docListSection
  cases hst : (http filesRequest).status_code == 200
  · simp [hst]
  · simp only [hst, if_true]
    cases hjs : (http filesRequest).json
    case obj fields => simp
    case jnull => simp
    case noJson => simp
    case fileArr es =>
      cases es with
      | nil => simp [docLoop_spec]
      | cons e rest =>
        cases hb : (http (requestsGet (docDownloadUrl e))).status_code == 200 <;>
          simp [docLoop_spec, hb]

/-- Unfolding an authenticated run of document_manager.py (token present
and truthy) into its three sections. -/
theorem runDocumentManager_auth (session : SessionState)
    (uploaded : Option UploadedFile) (clicked : Bool)
    (http : HttpRequest → HttpResponse) (tv : PyValue)
    (hlk : sessionLookup session "token" = some tv)
    (htr : pyTruthy tv = true) :
    runDocumentManager session uploaded clicked http =
      { requests := (docUploadSection http uploaded clicked).1 ++
          (docListSection http
            (docModuleEnv tv uploaded (uploaded.isSome && clicked))).1,
        events := RenderEvent.title "Document Manager" ::
          ((docUploadSection http uploaded clicked).2 ++
            (docListSection http
              (docModuleEnv tv uploaded (uploaded.isSome && clicked))).2.1),
        stopped := false,
        raised := (docListSection http
          (docModuleEnv tv uploaded (uploaded.isSome && clicked))).2.2 } := by
  unfold runDocumentManager sessionGetD
  rw [hlk]
  simp [htr]

/-- Every event the upload section renders is the upload outcome: never a
warning and never a download button. -/
theorem docUploadSection_events_class (http : HttpRequest → HttpResponse)
    (uploaded : Option UploadedFile) (clicked : Bool) :
    ∀ ev ∈ (docUploadSection http uploaded clicked).2,
      ev.isWarning = false ∧ ev.isDownloadButton = false := by
  intro ev hev
  cases uploaded with
  | none => simp [docUploadSection] at hev
  | some f =>
    cases clicked with
    | false => simp [docUploadSection] at hev
    | true =>
      simp [docUploadSection] at hev
      subst hev
      unfold uploadOutcomeEvent
      split <;> exact ⟨rfl, rfl⟩

/-- Every event the listing section renders (over the module environment)
is an info or error message: never a warning, a success message, or a
download button. -/
theorem docListSection_events_class (http : HttpRequest → HttpResponse)
    (tv : PyValue) (uploaded : Option UploadedFile) (clicked : Bool) :
    ∀ ev ∈ (docListSection http
        (docModuleEnv tv uploaded (uploaded.isSome && clicked))).2.1,
      ev.isWarning = false ∧ ev.isSuccess = false ∧
        ev.isDownloadButton = false := by
  intro ev hev
  rw [docListSection_spec] at hev
  repeat' split at hev
  all_goals simp at hev
  all_goals subst hev
  all_goals exact ⟨rfl, rfl, rfl⟩

/-- The upload outcome event is the success message exactly for a 200
response. -/
theorem uploadOutcomeEvent_success_iff (sc : Nat) :
    uploadOutcomeEvent sc = RenderEvent.success "File uploaded successfully."
      ↔ sc = 200 := by
  unfold uploadOutcomeEvent
  by_cases h : sc = 200
  · simp [h]
  · have hb : (sc == 200) = false := beq_eq_false_iff_ne.mpr h
    simp [hb, h]

/-- The upload outcome event for a non-200 response is the failure
message carrying the status code. -/
theorem uploadOutcomeEvent_of_ne (sc : Nat) (h : sc ≠ 200) :
    uploadOutcomeEvent sc = RenderEvent.error ("Upload failed: " ++ toString sc) := by
  have hb : (sc == 200) = false := beq_eq_false_iff_ne.mpr h
  simp [uploadOutcomeEvent, hb]

/-- Every request the upload section issues is passed neither a header
dict nor a timeout. -/
theorem docUploadSection_requests_plain (http : HttpRequest → HttpResponse)
    (uploaded : Option UploadedFile) (clicked : Bool) :
    ((docUploadSection http uploaded clicked).1.all
      fun r => r.headers.isEmpty && r.timeout.isNone) = true := by
  cases uploaded <;> cases clicked <;> rfl

/-- Every request the listing section issues is passed neither a header
dict nor a timeout. -/
theorem docListSection_requests_plain (http : HttpRequest → HttpResponse)
    (tv : PyValue) (uploaded : Option UploadedFile) (clicked : Bool) :
    ((docListSection http
        (docModuleEnv tv uploaded (uploaded.isSome && clicked))).1.all
      fun r => r.headers.isEmpty && r.timeout.isNone) = true := by
  rw [docListSection_spec]
  repeat' split
  all_goals rfl

/-- Every request any run of document_manager.py issues is passed neither
a header dict nor a timeout. -/
theorem runDocumentManager_requests_plain (session : SessionState)
    (uploaded : Option UploadedFile) (clicked : Bool)
    (http : HttpRequest → HttpResponse) :
    ((runDocumentManager session uploaded clicked http).requests.all
      fun r => r.headers.isEmpty && r.timeout.isNone) = true := by
  cases hl : sessionLookup session "token" with
  | none =>
    unfold runDocumentManager
    rw [hl]
    rfl
  | some tv =>
    cases htr : pyTruthy tv with
    | false =>
      unfold runDocumentManager sessionGetD
      rw [hl]
      simp [htr]
    | true =>
      rw [runDocumentManager_auth session uploaded clicked http tv hl htr]
      rw [List.all_eq_true]
      intro r hr
      rcases List.mem_append.mp hr with h | h
      · exact List.all_eq_true.mp
          (docUploadSection_requests_plain http uploaded clicked) r h
      · exact List.all_eq_true.mp
          (docListSection_requests_plain http tv uploaded clicked) r h

/-! ### The claims -/

/-- C2: document_manager.py references the undefined identifier `file_id`
outside any binding.  Whenever `/files` answers 200 with a non-empty list
and the first per-file download request answers 200, the run aborts with
an unbound-name error on `file_id` while evaluating the download-button
key, and no download button is rendered. -/
theorem C2_download_button_key_raises_nameError_file_id
    (session : SessionState) (uploaded : Option UploadedFile) (clicked : Bool)
    (http : HttpRequest → HttpResponse) (tv : PyValue) (e : FileEntry)
    (rest : List FileEntry)
    (hlk : sessionLookup session "token" = some tv)
    (htr : pyTruthy tv = true)
    (hst : (http filesRequest).status_code = 200)
    (hjs : (http filesRequest).json = .fileArr (e :: rest))
    (hdl : (http (requestsGet (docDownloadUrl e))).status_code = 200) :
    (runDocumentManager session uploaded clicked http).raised =
        some (.nameError "file_id") ∧
      ∀ ev ∈ (runDocumentManager session uploaded clicked http).events,
        ev.isDownloadButton = false := by
  rw [runDocumentManager_auth session uploaded clicked http tv hlk htr,
    docListSection_spec]
  constructor
  · simp [hjs, hst, hdl]
  · intro ev hev
    simp only [hjs, hst, hdl] at hev
    simp at hev
    rcases hev with h | h
    · subst h; rfl
    · exact (docUploadSection_events_class http uploaded clicked ev h).2

/-- Witness for C2 at a concrete backend. -/
theorem C2_witness :
    (runDocumentManager [("token", PyValue.str "tok")] Option.none false
        httpAll200).raised = some (.nameError "file_id") :=
  (C2_download_button_key_raises_nameError_file_id
    [("token", PyValue.str "tok")] Option.none false httpAll200
    (PyValue.str "tok") { id := "abc", filename := "a.txt" } []
    rfl rfl rfl rfl rfl).1

/-- C4: when the session has no `token` key, loading document_manager.py
raises `KeyError` at the header construction of line 7, before the login
guard of line 11 can run and render anything; the warning branch is
rendered exactly when the key exists and holds a falsy value. -/
theorem C4_missing_token_key_raises_before_guard
    (session : SessionState) (uploaded : Option UploadedFile) (clicked : Bool)
    (http : HttpRequest → HttpResponse) :
    (sessionLookup session "token" = Option.none →
      runDocumentManager session uploaded clicked http =
        { requests := [], events := [], stopped := false,
          raised := some (.keyError "token") }) ∧
    (∀ tv, sessionLookup session "token" = some tv →
      (RenderEvent.warning "Please log in first." ∈
          (runDocumentManager session uploaded clicked http).events ↔
        pyTruthy tv = false)) := by
  constructor
  · intro h
    unfold runDocumentManager
    rw [h]
  · intro tv hlk
    cases htr : pyTruthy tv with
    | true =>
      rw [runDocumentManager_auth session uploaded clicked http tv hlk htr]
      constructor
      · intro hmem
        exfalso
        rcases List.mem_cons.mp hmem with h1 | h2
        · exact absurd h1 (by simp)
        · rcases List.mem_append.mp h2 with h3 | h4
          · simpa [RenderEvent.isWarning] using
              (docUploadSection_events_class http uploaded clicked _ h3).1
          · simpa [RenderEvent.isWarning] using
              (docListSection_events_class http tv uploaded clicked _ h4).1
      · intro hf
        simp at hf
    | false =>
      unfold runDocumentManager sessionGetD
      rw [hlk]
      simp [htr]

/-- Witness for C4: a session without the key crashes with `KeyError`,
and a session with a falsy token reaches the warning. -/
theorem C4_witness :
    runDocumentManager [] Option.none false httpFail =
        { requests := [], events := [], stopped := false,
          raised := some (.keyError "token") } ∧
      RenderEvent.warning "Please log in first." ∈
        (runDocumentManager [("token", PyValue.bool false)] Option.none false
          httpFail).events :=
  ⟨(C4_missing_token_key_raises_before_guard [] Option.none false httpFail).1
      rfl,
   ((C4_missing_token_key_raises_before_guard [("token", PyValue.bool false)]
      Option.none false httpFail).2 (PyValue.bool false) rfl).mpr rfl⟩

/-- C8: a 200 `/files` response with an empty list is handled as a normal
outcome: with no upload in play the page renders exactly the title and
the `No files found.` info message — no download button, no error, no
exception. -/
theorem C8_empty_file_list_is_not_an_error
    (session : SessionState) (clicked : Bool)
    (http : HttpRequest → HttpResponse) (tv : PyValue)
    (hlk : sessionLookup session "token" = some tv)
    (htr : pyTruthy tv = true)
    (hst : (http filesRequest).status_code = 200)
    (hjs : (http filesRequest).json = .fileArr []) :
    runDocumentManager session Option.none clicked http =
      { requests := [filesRequest],
        events := [RenderEvent.title "Document Manager",
          RenderEvent.info "No files found."],
        stopped := false, raised := Option.none } := by
  rw [runDocumentManager_auth session Option.none clicked http tv hlk htr,
    docListSection_spec]
  simp [hjs, hst, docUploadSection]

/-- Witness for C8 at a concrete backend. -/
theorem C8_witness :
    runDocumentManager [("token", PyValue.str "tok")] Option.none false
        httpEmptyList =
      { requests := [filesRequest],
        events := [RenderEvent.title "Document Manager",
          RenderEvent.info "No files found."],
        stopped := false, raised := Option.none } :=
  C8_empty_file_list_is_not_an_error [("token", PyValue.str "tok")] false
    httpEmptyList (PyValue.str "tok") rfl rfl rfl rfl

/-- C10: the download failure branch is itself broken.  When the first
per-file download request answers a non-200 status, line 53 interpolates
the unbound name `file` and the run aborts with a `NameError` on `file`;
with no upload in play nothing beyond the title is rendered, so the
intended failure message is never displayed. -/
theorem C10_download_failure_branch_raises_nameError_file
    (session : SessionState) (uploaded : Option UploadedFile) (clicked : Bool)
    (http : HttpRequest → HttpResponse) (tv : PyValue) (e : FileEntry)
    (rest : List FileEntry)
    (hlk : sessionLookup session "token" = some tv)
    (htr : pyTruthy tv = true)
    (hst : (http filesRequest).status_code = 200)
    (hjs : (http filesRequest).json = .fileArr (e :: rest))
    (hdl : (http (requestsGet (docDownloadUrl e))).status_code ≠ 200) :
    (runDocumentManager session uploaded clicked http).raised =
        some (.nameError "file") ∧
      (runDocumentManager session Option.none clicked http).events =
        [RenderEvent.title "Document Manager"] := by
  have hb : ((http (requestsGet (docDownloadUrl e))).status_code == 200)
      = false := beq_eq_false_iff_ne.mpr hdl
  constructor
  · rw [runDocumentManager_auth session uploaded clicked http tv hlk htr,
      docListSection_spec]
    simp [hjs, hst, hb]
  · rw [runDocumentManager_auth session Option.none clicked http tv hlk htr,
      docListSection_spec]
    simp [hjs, hst, hb, docUploadSection]

/-- Witness for C10 at a concrete backend whose downloads answer 404. -/
theorem C10_witness :
    (runDocumentManager [("token", PyValue.str "tok")] Option.none false
        httpListThen404).raised = some (.nameError "file") :=
  (C10_download_failure_branch_raises_nameError_file
    [("token", PyValue.str "tok")] Option.none false httpListThen404
    (PyValue.str "tok") { id := "abc", filename := "a.txt" } []
    rfl rfl rfl rfl (by decide)).1

/-- C7: when a chosen file is uploaded, the request is a multipart POST
to `/upload` carrying the file name, content type and exact bytes; the
success message is rendered exactly when the response status is 200, and
every non-200 status renders a failure message carrying the code. -/
theorem C7_upload_multipart_and_status_reporting
    (session : SessionState) (f : UploadedFile)
    (http : HttpRequest → HttpResponse) (tv : PyValue)
    (hlk : sessionLookup session "token" = some tv)
    (htr : pyTruthy tv = true) :
    (runDocumentManager session (some f) true http).requests.head? =
        some (uploadRequest f) ∧
      (uploadRequest f).method = .post ∧
      (uploadRequest f).url = API_URL ++ "/upload" ∧
      (uploadRequest f).body =
        .multipart [⟨"file", f.name, f.content, f.type⟩] ∧
      (RenderEvent.success "File uploaded successfully." ∈
          (runDocumentManager session (some f) true http).events ↔
        (http (uploadRequest f)).status_code = 200) ∧
      ((http (uploadRequest f)).status_code ≠ 200 →
        RenderEvent.error
            ("Upload failed: " ++
              toString (http (uploadRequest f)).status_code) ∈
          (runDocumentManager session (some f) true http).events) := by
  rw [runDocumentManager_auth session (some f) true http tv hlk htr]
  refine ⟨rfl, rfl, rfl, rfl, ?_, ?_⟩
  · constructor
    · intro hmem
      rcases List.mem_cons.mp hmem with h1 | h2
      · exact absurd h1 (by simp)
      · rcases List.mem_append.mp h2 with h3 | h4
        · have heq : RenderEvent.success "File uploaded successfully." =
              uploadOutcomeEvent (http (uploadRequest f)).status_code := by
            simpa [docUploadSection] using h3
          exact (uploadOutcomeEvent_success_iff _).mp heq.symm
        · simpa [RenderEvent.isSuccess] using
            (docListSection_events_class http tv (some f) true _ h4).2.1
    · intro h200
      apply List.mem_cons_of_mem
      apply List.mem_append_left
      simp [docUploadSection, uploadOutcomeEvent, h200]
  · intro hne
    apply List.mem_cons_of_mem
    apply List.mem_append_left
    simp [docUploadSection, uploadOutcomeEvent_of_ne _ hne]

/-- Witness for C7 at a concrete backend that accepts the upload. -/
theorem C7_witness :
    RenderEvent.success "File uploaded successfully." ∈
      (runDocumentManager [("token", PyValue.str "tok")]
        (some { name := "a.txt", content := [104, 105], type := "text/plain" })
        true httpAll200).events :=
  ((C7_upload_multipart_and_status_reporting [("token", PyValue.str "tok")]
      { name := "a.txt", content := [104, 105], type := "text/plain" }
      httpAll200 (PyValue.str "tok") rfl rfl).2.2.2.2.1).mpr rfl

/-- C1 fails on the code: the page builds the `headers` dict of lines 6-8
with the bearer token — it is bound in the module environment with the
`Authorization: Bearer` entry — but none of the three requests the page
issues is passed any header dict at all, so no request carries the
bearer header. -/
theorem C1_requests_never_carry_authorization_header
    (session : SessionState) (uploaded : Option UploadedFile) (clicked : Bool)
    (http : HttpRequest → HttpResponse) (tv : PyValue) :
    envLookup (docModuleEnv tv uploaded (uploaded.isSome && clicked))
        "headers" =
        .ok (.strDict [("Authorization", "Bearer " ++ pyStrOf tv)]) ∧
      ((runDocumentManager session uploaded clicked http).requests.all
        fun r => r.headers.isEmpty) = true := by
  constructor
  · rfl
  · have h := runDocumentManager_requests_plain session uploaded clicked http
    rw [List.all_eq_true] at h ⊢
    intro r hr
    exact ((Bool.and_eq_true _ _).mp (h r hr)).1

/-- C3 fails on the code: iterating the `/files` list of records, line 43
splices the Python `str()` of the whole record into the download path, so
the page requests `/download_file/` followed by the dict display — not
`/download_file/abc` for the record with id `abc`. -/
theorem C3_download_request_uses_str_of_entry_not_id :
    (runDocumentManager [("token", PyValue.str "tok")] Option.none false
        httpListThen404).requests =
      [filesRequest,
        requestsGet (docDownloadUrl { id := "abc", filename := "a.txt" })] ∧
    docDownloadUrl { id := "abc", filename := "a.txt" } =
      API_URL ++ "/download_file/" ++ Py.lbrace ++ Py.squote ++ "id" ++
        Py.squote ++ ": " ++ Py.squote ++ "abc" ++ Py.squote ++ ", " ++
        Py.squote ++ "filename" ++ Py.squote ++ ": " ++ Py.squote ++
        "a.txt" ++ Py.squote ++ Py.rbrace ∧
    docDownloadUrl { id := "abc", filename := "a.txt" } ≠
      API_URL ++ "/download_file/abc" := by
  refine ⟨rfl, rfl, ?_⟩
  decide

/-- C6 fails on the code: no backend call of either page passes a
`timeout=` argument — every issued request has `timeout = Option.none`,
the requests-library default of blocking without bound. -/
theorem C6_no_backend_call_sets_a_timeout
    (session : SessionState) (uploaded : Option UploadedFile) (clicked : Bool)
    (creds : List (String × String)) (s2 : SessionState) (u p : String)
    (submit : Bool) (http : HttpRequest → HttpResponse) :
    ((runDocumentManager session uploaded clicked http).requests.all
        fun r => r.timeout.isNone) = true ∧
      ((runStartpage creds s2 u p submit http).requests.all
        fun r => r.timeout.isNone) = true := by
  constructor
  · have h := runDocumentManager_requests_plain session uploaded clicked http
    rw [List.all_eq_true] at h ⊢
    intro r hr
    exact ((Bool.and_eq_true _ _).mp (h r hr)).2
  · cases submit with
    | false => rfl
    | true =>
      unfold runStartpage
      cases hb : (http (loginRequest u p)).status_code == 200 <;>
        repeat' split
      all_goals rfl

/-- C5: the login flow succeeds exactly on a 200 response.  On 200 the
token field of the response body is stored in the session and `login`
returns `True`; on any non-200 status the response body is rendered as an
error, `login` returns `False`, and after the failure handler the session
holds neither a `token` nor a `username` key. -/
theorem C5_login_outcome_matches_status
    (creds : List (String × String)) (session : SessionState) (u p : String)
    (http : HttpRequest → HttpResponse) :
    (∀ fields, (http (loginRequest u p)).status_code = 200 →
      (http (loginRequest u p)).json = .obj fields →
      (runStartpage creds session u p true http).loginResult = some true ∧
      sessionLookup (runStartpage creds session u p true http).finalSession
          "token" = some (pyDictGet fields "token") ∧
      (runStartpage creds session u p true http).events =
        [startTitle, RenderEvent.success "Login successful!",
          RenderEvent.info navigateMsg] ∧
      (runStartpage creds session u p true http).raised = Option.none) ∧
    ((http (loginRequest u p)).status_code ≠ 200 →
      (runStartpage creds session u p true http).loginResult = some false ∧
      (runStartpage creds session u p true http).events =
        [startTitle, RenderEvent.error (http (loginRequest u p)).text] ∧
      (runStartpage creds session u p true http).raised = Option.none ∧
      sessionLookup (runStartpage creds session u p true http).finalSession
          "token" = Option.none ∧
      sessionLookup (runStartpage creds session u p true http).finalSession
          "username" = Option.none) := by
  constructor
  · intro fields h200 hjson
    have hb : ((http (loginRequest u p)).status_code == 200) = true := by
      simp [h200]
    unfold runStartpage
    simp only [hb, hjson, jsonGetToken, if_true]
    refine ⟨trivial, ?_, trivial, trivial⟩
    rw [sessionLookup_sessionSet_ne _ "username" "token" _ (by decide),
      sessionLookup_sessionSet_ne _ "logged_in" "token" _ (by decide),
      sessionLookup_sessionSet_self]
  · intro hne
    have hb : ((http (loginRequest u p)).status_code == 200) = false :=
      beq_eq_false_iff_ne.mpr hne
    have hk1 : hasKey (sessionInit session) "token" = true :=
      hasKey_sessionInit_token session
    have hk2 : hasKey (eraseKey (sessionInit session) "token") "username"
        = true := by
      unfold hasKey
      rw [sessionLookup_eraseKey_ne _ _ _ (by decide)]
      exact hasKey_sessionInit_username session
    unfold runStartpage
    simp only [hb, sessionDelChecked, hk1, hk2, if_true, if_false,
      Bool.false_eq_true]
    refine ⟨trivial, trivial, trivial, ?_, ?_⟩
    · rw [sessionLookup_eraseKey_ne _ _ _ (by decide),
        sessionLookup_eraseKey_self]
    · rw [sessionLookup_eraseKey_self]

/-- Witness for C5: a 200 login stores the returned token, a 401 login
reports failure. -/
theorem C5_witness :
    sessionLookup (runStartpage USER_CREDENTIALS [] "admin" "admin123" true
        httpLoginOk).finalSession "token" = some (PyValue.str "tok123") ∧
      (runStartpage USER_CREDENTIALS [] "admin" "wrong" true
        httpLoginBad).loginResult = some false :=
  ⟨((C5_login_outcome_matches_status USER_CREDENTIALS [] "admin" "admin123"
      httpLoginOk).1 [("token", PyValue.str "tok123")] rfl rfl).2.1,
   ((C5_login_outcome_matches_status USER_CREDENTIALS [] "admin" "wrong"
      httpLoginBad).2 (by decide)).1⟩

/-- C9: the static credential dict is dead data.  Two runs of startpage.py
that differ only in the contents of `USER_CREDENTIALS` produce identical
traces — the same requests, rendered messages, final session, and login
return value — for every session, form input and backend. -/
theorem C9_run_independent_of_USER_CREDENTIALS
    (c1 c2 : List (String × String)) (session : SessionState) (u p : String)
    (submit : Bool) (http : HttpRequest → HttpResponse) :
    runStartpage c1 session u p submit http =
      runStartpage c2 session u p submit http := rfl

end App
